import Mathlib

/-!
Shallow embedding of the Gauner transcript service (src/api.py and
src/worker-python.py).  The external transcript provider
(`YouTubeTranscriptApi.get_transcript`) is modelled as a function from a
call description (video id, optional language preference list,
formatting-preservation flag) to either a segment list or an error
message.  Both entry points are embedded as pure functions that also
return the list of provider calls they issued, in order, so that
claims about call order and short-circuiting can be stated.

The Python string primitives used by the source (`str.replace`,
`str.strip`, `str.split`, `str.startswith`, `in`, `len`) are embedded
as structurally recursive functions on character lists (with an
explicit fuel bound where the recursion consumes pattern-sized chunks)
so that every application reduces inside the kernel.
-/

namespace Gauner

deriving instance DecidableEq for Except

/-- Python `str.replace(old, new)` semantics on character lists:
substitute non-overlapping occurrences of `pat` by `rep`, scanning
left to right.  `fuel` bounds the recursion; `fuel = s.length` is
exact for the nonempty patterns the source uses. -/
def replaceFuel (rep pat : List Char) : Nat → List Char → List Char
  | 0, s => s
  | _ + 1, [] => []
  | n + 1, c :: rest =>
    if pat.isPrefixOf (c :: rest) then
      rep ++ replaceFuel rep pat n ((c :: rest).drop pat.length)
    else
      c :: replaceFuel rep pat n rest

/-- Python `s.replace(old, new)` (for the nonempty `old` patterns the
source uses). -/
def pyReplace (s old new : String) : String :=
  ⟨replaceFuel new.data old.data s.data.length s.data⟩

/-- The characters Python `str.strip()` removes (ASCII whitespace). -/
def isPySpace (c : Char) : Bool :=
  c = ' ' || c = '\t' || c = '\n' || c = '\r' || c = '\x0b' || c = '\x0c'

/-- Python `s.strip()`: drop leading and trailing whitespace. -/
def pyStrip (s : String) : String :=
  ⟨((s.data.dropWhile isPySpace).reverse.dropWhile isPySpace).reverse⟩

/-- Python `s.split(sep)` semantics on character lists, for a nonempty
separator: cut at each non-overlapping occurrence of `sep`, keeping
empty pieces.  `fuel = s.length + 1` is exact. -/
def splitFuel (sep : List Char) : Nat → List Char → List Char → List (List Char)
  | 0, s, acc => [acc.reverse ++ s]
  | _ + 1, [], acc => [acc.reverse]
  | n + 1, c :: rest, acc =>
    if sep.isPrefixOf (c :: rest) then
      acc.reverse :: splitFuel sep n ((c :: rest).drop sep.length) []
    else
      splitFuel sep n rest (c :: acc)

/-- Python `s.split(sep)` for a nonempty separator. -/
def pySplit (s sep : String) : List String :=
  (splitFuel sep.data (s.data.length + 1) s.data []).map fun l => ⟨l⟩

/-- Python `c in s` for a single character. -/
def pyContains (s : String) (c : Char) : Bool :=
  s.data.contains c

/-- Python `s.startswith(p)`. -/
def pyStartsWith (s p : String) : Bool :=
  p.data.isPrefixOf s.data

/-- A timed caption segment, as returned by the external provider
(dict with keys text/start/duration in the Python source).  The timing
values are floats in the provider's wire format; no claim inspects
them, so they are carried as integers opaque to all theorems. -/
structure Segment where
  text : String
  start : Int
  duration : Int
deriving DecidableEq, Repr

/-- One call to `YouTubeTranscriptApi.get_transcript`: the video id,
the `languages` keyword argument (`none` when the keyword is omitted),
and the `preserve_formatting` keyword argument. -/
structure ProviderCall where
  videoId : String
  languages : Option (List String)
  preserveFormatting : Bool
deriving DecidableEq, Repr

/-- The external provider: a call either yields a segment list or
raises, modelled as an error message string. -/
def Provider : Type := ProviderCall → Except String (List Segment)

/-- Tier 1 (both entry points): `languages=['en']`, `preserve_formatting=False`
(src/api.py lines 57-61, src/worker-python.py lines 43-47). -/
def tier1Call (v : String) : ProviderCall := ⟨v, some ["en"], false⟩

/-- Tier 2 (both entry points): no language filter, `preserve_formatting=False`
(src/api.py lines 69-72, src/worker-python.py lines 52-55). -/
def tier2Call (v : String) : ProviderCall := ⟨v, none, false⟩

/-- Tier 3 of the full endpoint: the ten-language allow-list
(src/api.py lines 80-84). -/
def tier3CallApi (v : String) : ProviderCall :=
  ⟨v, some ["en", "de", "fr", "es", "it", "pt", "ru", "ja", "ko", "zh"], false⟩

/-- Tier 3 of the alternate (worker) handler: the five-language
allow-list (src/worker-python.py lines 60-64). -/
def tier3CallWorker (v : String) : ProviderCall :=
  ⟨v, some ["en", "de", "fr", "es", "it"], false⟩

/-- The single call of the segments endpoint (src/api.py lines 139-143). -/
def segmentsCall (v : String) : ProviderCall :=
  ⟨v, some ["en", "de", "fr", "es", "it"], false⟩

/-- Joining a list of strings with newline separators. -/
def joinLines : List String → String
  | [] => ""
  | [x] => x
  | x :: xs => x ++ "\n" ++ joinLines xs

/-- Modelled from the spec: `TextFormatter.format_transcript` of the
external provider library (not part of src/) concatenates the segment
texts separated by newlines (spec section 4.2: "segments joined,
typically separated by newlines"). -/
def format_transcript (segs : List Segment) : String :=
  joinLines (segs.map Segment.text)

/-- The clean-up line shared by both entry points (src/api.py line 105,
src/worker-python.py line 81):
`transcript_text.replace('\n', ' ').replace('  ', ' ').strip()`. -/
def cleanText (s : String) : String :=
  pyStrip (pyReplace (pyReplace s "\n" " ") "  " " ")

/-- The JSON body of a full-endpoint success (src/api.py lines 110-118). -/
structure TranscriptResponse where
  success : Bool
  video_id : String
  transcript : String
  language_used : String
  segments_count : Nat
  transcript_length : Nat
  service : String
deriving DecidableEq, Repr

/-- Outcome of the full endpoint: a success body, or an
`HTTPException(status_code, detail)`. -/
inductive ApiResult where
  | ok : TranscriptResponse → ApiResult
  | httpError (status : Nat) (detail : String) : ApiResult
deriving DecidableEq, Repr

/-- The three-tier fallback chain of the full endpoint (src/api.py
lines 55-92): nested try/except, each tier's failure caught and the
next tier attempted; the result carries the issued calls in order,
and on success the `language_used` label of the succeeding tier. -/
def apiFallbackChain (P : Provider) (v : String) :
    List ProviderCall × Except String (List Segment × String) :=
  match P (tier1Call v) with
  | .ok d => ([tier1Call v], .ok (d, "en (auto-generated)"))
  | .error _ =>
    match P (tier2Call v) with
    | .ok d => ([tier1Call v, tier2Call v], .ok (d, "auto-generated (any language)"))
    | .error _ =>
      match P (tier3CallApi v) with
      | .ok d =>
        ([tier1Call v, tier2Call v, tier3CallApi v], .ok (d, "manual/auto (any available)"))
      | .error e3 =>
        ([tier1Call v, tier2Call v, tier3CallApi v], .error e3)

/-- `GET /transcript/{video_id}` (src/api.py lines 39-128): validate the
id, run the fallback chain, 404 with the last tier's error when all
tiers fail, 404 on empty data, otherwise format, clean and assemble
the success body.  Also returns the provider calls issued, in order. -/
def get_transcript (P : Provider) (video_id : String) : List ProviderCall × ApiResult :=
  if video_id = "" ∨ video_id.length < 10 then
    ([], .httpError 400 "Invalid video ID")
  else
    match apiFallbackChain P video_id with
    | (calls, .error e3) =>
      (calls, .httpError 404
        ("No transcript found for video " ++ video_id ++ ". Error: " ++ e3))
    | (calls, .ok (transcript_data, language_used)) =>
      if transcript_data = [] then
        (calls, .httpError 404 ("No transcript data available for video " ++ video_id))
      else
        let transcript_text := cleanText (format_transcript transcript_data)
        (calls, .ok
          { success := true
            video_id := video_id
            transcript := transcript_text
            language_used := language_used
            segments_count := transcript_data.length
            transcript_length := transcript_text.length
            service := "railway-youtube-transcript-api" })

/-- The JSON body of a segments-endpoint success (src/api.py lines 145-151). -/
structure SegmentsResponse where
  success : Bool
  video_id : String
  segments : List Segment
  segments_count : Nat
  service : String
deriving DecidableEq, Repr

/-- Outcome of the segments endpoint. -/
inductive SegmentsResult where
  | ok : SegmentsResponse → SegmentsResult
  | httpError (status : Nat) (detail : String) : SegmentsResult
deriving DecidableEq, Repr

/-- `GET /transcript/{video_id}/segments` (src/api.py lines 130-158):
one provider call with the five-language list, raw segments on
success, 500 on any failure. -/
def get_transcript_segments (P : Provider) (video_id : String) :
    List ProviderCall × SegmentsResult :=
  match P (segmentsCall video_id) with
  | .ok transcript_data =>
    ([segmentsCall video_id],
      .ok ⟨true, video_id, transcript_data, transcript_data.length,
        "railway-youtube-transcript-api"⟩)
  | .error e =>
    ([segmentsCall video_id], .httpError 500 ("Server error: " ++ e))

/-- The incoming request of the alternate handler: HTTP method and URL. -/
structure Request where
  method : String
  url : String
deriving DecidableEq, Repr

/-- The JSON (or empty) body of a worker response, mirroring the three
dict shapes built in src/worker-python.py. -/
inductive WorkerBody where
  | empty : WorkerBody
  | errorJson (error : String) (success : Bool) : WorkerBody
  | successJson (success : Bool) (transcript : String) (video_id : String)
      (segments_count : Nat) (length : Nat) : WorkerBody
deriving DecidableEq, Repr

/-- A worker `Response`: status, body and headers. -/
structure Response where
  status : Nat
  body : WorkerBody
  headers : List (String × String)
deriving DecidableEq, Repr

/-- Headers of the OPTIONS preflight response (src/worker-python.py
lines 7-11). -/
def optionsHeaders : List (String × String) :=
  [("Access-Control-Allow-Origin", "*"),
   ("Access-Control-Allow-Methods", "GET, POST, OPTIONS"),
   ("Access-Control-Allow-Headers", "Content-Type")]

/-- Headers attached to every JSON response of the worker. -/
def corsJsonHeaders : List (String × String) :=
  [("Access-Control-Allow-Origin", "*"),
   ("Content-Type", "application/json")]

/-- Query-string parsing of the worker (src/worker-python.py lines
14-25): when the URL contains a question mark, split on it and take
the part after the first one, split that on ampersands, and for the
first parameter starting with "video_id=" take `param.split('=')[1]`,
the portion of the value before its first equals sign. -/
def parseVideoId (url : String) : Option String :=
  if pyContains url '?' then
    let query_string := (pySplit url "?").getD 1 ""
    let params := pySplit query_string "&"
    match params.find? (fun param => pyStartsWith param "video_id=") with
    | some param => some ((pySplit param "=").getD 1 "")
    | none => none
  else
    none

/-- The worker's three-tier fallback chain (src/worker-python.py lines
41-74): same tiers 1 and 2 as the full endpoint, tier 3 with the
five-language list; bare excepts suppress the first two failures. -/
def workerFallbackChain (P : Provider) (v : String) :
    List ProviderCall × Except String (List Segment) :=
  match P (tier1Call v) with
  | .ok d => ([tier1Call v], .ok d)
  | .error _ =>
    match P (tier2Call v) with
    | .ok d => ([tier1Call v, tier2Call v], .ok d)
    | .error _ =>
      match P (tier3CallWorker v) with
      | .ok d => ([tier1Call v, tier2Call v, tier3CallWorker v], .ok d)
      | .error e => ([tier1Call v, tier2Call v, tier3CallWorker v], .error e)

/-- The alternate entry point `main(request)` (src/worker-python.py):
OPTIONS preflight, query parsing, 400 on missing/empty video_id,
three-tier fallback with 404 carrying the last tier's error, text
normalization and the success JSON.  Also returns the provider calls
issued, in order.

The whole body after the OPTIONS check runs inside a
`try ... except Exception as e` whose handler returns a 500
"Server error: {e}" JSON with CORS headers (src/worker-python.py lines
97-105).  The query parsing is fully modelled as total string
functions, and every provider exception is consumed by the chain's
inner bare excepts, so the only operations inside the try whose
failure reaches that outer handler are the unmodelled external ones on
the success path — the library formatter and response serialization
(lines 77-95).  `exc` makes that residual exception source explicit:
`some e` means the formatting/serialization step raises with message
`e`, routed to the outer handler's 500 response. -/
def workerMain (P : Provider) (exc : Option String) (request : Request) :
    List ProviderCall × Response :=
  if request.method = "OPTIONS" then
    ([], ⟨200, .empty, optionsHeaders⟩)
  else
    match parseVideoId request.url with
    | none =>
      ([], ⟨400, .errorJson "Missing video_id parameter" false, corsJsonHeaders⟩)
    | some video_id =>
      if video_id = "" then
        ([], ⟨400, .errorJson "Missing video_id parameter" false, corsJsonHeaders⟩)
      else
        match workerFallbackChain P video_id with
        | (calls, .error e) =>
          (calls, ⟨404,
            .errorJson ("No transcript found for video " ++ video_id ++ ". Error: " ++ e) false,
            corsJsonHeaders⟩)
        | (calls, .ok transcript) =>
          match exc with
          | some e =>
            (calls, ⟨500, .errorJson ("Server error: " ++ e) false, corsJsonHeaders⟩)
          | none =>
            let transcript_text := cleanText (format_transcript transcript)
            (calls, ⟨200,
              .successJson true transcript_text video_id transcript.length transcript_text.length,
              corsJsonHeaders⟩)

/-- A provider with no captions at all: every call fails. -/
def failP : Provider := fun _ => .error "no captions"

/-- A sample segment. -/
def seg1 : Segment := ⟨"hello world", 0, 2⟩

/-- A provider with only an English auto-generated transcript: the
tier-1 call succeeds, everything else fails. -/
def okEnP : Provider := fun c =>
  if c.languages = some ["en"] then .ok [seg1] else .error "nope"

/-- A provider that succeeds on every call with a one-segment list. -/
def okAllP : Provider := fun _ => .ok [seg1]

/-- A provider that claims success but returns an empty segment list. -/
def emptyP : Provider := fun _ => .ok []

/-- The success body the full endpoint produces for `okEnP` on the
identifier "abcdefghij". -/
def respW : TranscriptResponse :=
  { success := true
    video_id := "abcdefghij"
    transcript := "hello world"
    language_used := "en (auto-generated)"
    segments_count := 1
    transcript_length := 11
    service := "railway-youtube-transcript-api" }

end Gauner

namespace Gauner

theorem apiFallbackChain_t1_ok (P : Provider) (v : String) (d : List Segment)
    (h : P (tier1Call v) = .ok d) :
    apiFallbackChain P v = ([tier1Call v], .ok (d, "en (auto-generated)")) := by
  unfold apiFallbackChain
  rw [h]

theorem apiFallbackChain_t2_ok (P : Provider) (v : String) (e1 : String) (d : List Segment)
    (h1 : P (tier1Call v) = .error e1) (h2 : P (tier2Call v) = .ok d) :
    apiFallbackChain P v =
      ([tier1Call v, tier2Call v], .ok (d, "auto-generated (any language)")) := by
  unfold apiFallbackChain
  rw [h1, h2]

theorem apiFallbackChain_t3_ok (P : Provider) (v : String) (e1 e2 : String) (d : List Segment)
    (h1 : P (tier1Call v) = .error e1) (h2 : P (tier2Call v) = .error e2)
    (h3 : P (tier3CallApi v) = .ok d) :
    apiFallbackChain P v =
      ([tier1Call v, tier2Call v, tier3CallApi v], .ok (d, "manual/auto (any available)")) := by
  unfold apiFallbackChain
  rw [h1, h2, h3]

theorem apiFallbackChain_all_fail (P : Provider) (v : String) (e1 e2 e3 : String)
    (h1 : P (tier1Call v) = .error e1) (h2 : P (tier2Call v) = .error e2)
    (h3 : P (tier3CallApi v) = .error e3) :
    apiFallbackChain P v =
      ([tier1Call v, tier2Call v, tier3CallApi v], .error e3) := by
  unfold apiFallbackChain
  rw [h1, h2, h3]

theorem apiFallbackChain_trace_cases (P : Provider) (v : String) :
    (apiFallbackChain P v).1 = [tier1Call v] ∨
    (apiFallbackChain P v).1 = [tier1Call v, tier2Call v] ∨
    (apiFallbackChain P v).1 = [tier1Call v, tier2Call v, tier3CallApi v] := by
  unfold apiFallbackChain
  cases P (tier1Call v) with
  | ok d => exact Or.inl rfl
  | error e1 =>
    cases P (tier2Call v) with
    | ok d => exact Or.inr (Or.inl rfl)
    | error e2 =>
      cases P (tier3CallApi v) with
      | ok d => exact Or.inr (Or.inr rfl)
      | error e3 => exact Or.inr (Or.inr rfl)

theorem workerFallbackChain_all_fail (P : Provider) (v : String) (e1 e2 e3 : String)
    (h1 : P (tier1Call v) = .error e1) (h2 : P (tier2Call v) = .error e2)
    (h3 : P (tier3CallWorker v) = .error e3) :
    workerFallbackChain P v =
      ([tier1Call v, tier2Call v, tier3CallWorker v], .error e3) := by
  unfold workerFallbackChain
  rw [h1, h2, h3]

theorem workerFallbackChain_trace_cases (P : Provider) (v : String) :
    (workerFallbackChain P v).1 = [tier1Call v] ∨
    (workerFallbackChain P v).1 = [tier1Call v, tier2Call v] ∨
    (workerFallbackChain P v).1 = [tier1Call v, tier2Call v, tier3CallWorker v] := by
  unfold workerFallbackChain
  cases P (tier1Call v) with
  | ok d => exact Or.inl rfl
  | error e1 =>
    cases P (tier2Call v) with
    | ok d => exact Or.inr (Or.inl rfl)
    | error e2 =>
      cases P (tier3CallWorker v) with
      | ok d => exact Or.inr (Or.inr rfl)
      | error e3 => exact Or.inr (Or.inr rfl)

theorem get_transcript_ok_inv (P : Provider) (v : String) (calls : List ProviderCall)
    (resp : TranscriptResponse) (h : get_transcript P v = (calls, .ok resp)) :
    ∃ d, apiFallbackChain P v = (calls, .ok (d, resp.language_used)) ∧ d ≠ [] ∧
      resp = { success := true
               video_id := v
               transcript := cleanText (format_transcript d)
               language_used := resp.language_used
               segments_count := d.length
               transcript_length := (cleanText (format_transcript d)).length
               service := "railway-youtube-transcript-api" } := by
  unfold get_transcript at h
  split at h
  · simp at h
  · split at h
    · simp at h
    · split at h
      · simp at h
      · rename_i heq hne
        rw [Prod.mk.injEq, ApiResult.ok.injEq] at h
        obtain ⟨rfl, rfl⟩ := h
        exact ⟨_, heq, hne, rfl⟩

end Gauner

namespace Gauner

theorem replaceFuel_newline_free (n : Nat) :
    ∀ s : List Char, s.length ≤ n → '\n' ∉ replaceFuel [' '] ['\n'] n s := by
  induction n with
  | zero =>
    intro s hs
    have : s = [] := List.eq_nil_of_length_eq_zero (Nat.le_zero.mp hs)
    subst this
    simp [replaceFuel]
  | succ n ih =>
    intro s hs
    cases s with
    | nil => simp [replaceFuel]
    | cons c rest =>
      simp only [replaceFuel]
      by_cases hc : List.isPrefixOf ['\n'] (c :: rest) = true
      · rw [if_pos hc]
        simp only [List.length_cons, List.drop_succ_cons, List.drop_zero]
        intro hmem
        rcases List.mem_append.mp hmem with h | h
        · simp at h
        · exact ih rest (by simpa using Nat.succ_le_succ_iff.mp hs) h
      · rw [if_neg hc]
        simp only [List.isPrefixOf, List.isPrefixOf_nil_left, Bool.and_true] at hc
        intro hmem
        rcases List.mem_cons.mp hmem with h | h
        · exact hc (by simp [h.symm])
        · exact ih rest (by simpa using Nat.succ_le_succ_iff.mp hs) h

theorem pyReplace_newline_free (s : String) :
    '\n' ∉ (pyReplace s "\n" " ").data :=
  replaceFuel_newline_free s.data.length s.data (Nat.le_refl _)

end Gauner

namespace Gauner

/-- Claim C1: the full endpoint's retrieval chain issues provider
requests in strict tier order — tier 1 with languages ['en'], tier 2
with no language filter, tier 3 with the fixed allow-list — all with
formatting preservation disabled, stops at the first tier that
succeeds, and the success response's `language_used` is the
human-readable label of the tier that succeeded (tier 1 yields the
auto-generated-English label). -/
theorem C1_full_endpoint_fallback_order (P : Provider) (v : String) :
    (∀ c ∈ (apiFallbackChain P v).1, c.videoId = v ∧ c.preserveFormatting = false) ∧
    tier1Call v = ⟨v, some ["en"], false⟩ ∧
    tier2Call v = ⟨v, none, false⟩ ∧
    tier3CallApi v = ⟨v, some ["en", "de", "fr", "es", "it", "pt", "ru", "ja", "ko", "zh"], false⟩ ∧
    (∀ d, P (tier1Call v) = .ok d →
      apiFallbackChain P v = ([tier1Call v], .ok (d, "en (auto-generated)"))) ∧
    (∀ e1 d, P (tier1Call v) = .error e1 → P (tier2Call v) = .ok d →
      apiFallbackChain P v =
        ([tier1Call v, tier2Call v], .ok (d, "auto-generated (any language)"))) ∧
    (∀ e1 e2 d, P (tier1Call v) = .error e1 → P (tier2Call v) = .error e2 →
      P (tier3CallApi v) = .ok d →
      apiFallbackChain P v =
        ([tier1Call v, tier2Call v, tier3CallApi v], .ok (d, "manual/auto (any available)"))) ∧
    (∀ calls resp, get_transcript P v = (calls, .ok resp) →
      ∃ d, apiFallbackChain P v = (calls, .ok (d, resp.language_used))) := by
  refine ⟨?_, rfl, rfl, rfl, ?_, ?_, ?_, ?_⟩
  · intro c hc
    rcases apiFallbackChain_trace_cases P v with h | h | h <;> rw [h] at hc <;>
      simp only [List.mem_cons, List.not_mem_nil, or_false] at hc <;>
      rcases hc with rfl | rfl | rfl <;>
      exact ⟨rfl, rfl⟩
  · exact fun d h => apiFallbackChain_t1_ok P v d h
  · exact fun e1 d h1 h2 => apiFallbackChain_t2_ok P v e1 d h1 h2
  · exact fun e1 e2 d h1 h2 h3 => apiFallbackChain_t3_ok P v e1 e2 d h1 h2 h3
  · intro calls resp h
    obtain ⟨d, hd, -, -⟩ := get_transcript_ok_inv P v calls resp h
    exact ⟨d, hd⟩

/-- Witness for C1: a provider with only an English transcript makes
the chain stop after the tier-1 call with the auto-generated-English
label. -/
theorem C1_full_endpoint_fallback_order_witness :
    apiFallbackChain okEnP "abcdefghij" =
      ([tier1Call "abcdefghij"], .ok ([seg1], "en (auto-generated)")) :=
  (C1_full_endpoint_fallback_order okEnP "abcdefghij").2.2.2.2.1 [seg1] rfl

/-- Claim C2: text normalization replaces every newline character with
a single space, performs exactly one literal replace of the
two-character double-space string by a single space, then trims; on a
triple-space run such as "a   b" the normalized output "a  b" still
contains a double space, i.e. runs of three or more spaces are not
fully collapsed. -/
theorem C2_normalization_single_pass :
    (∀ s : String, cleanText s = pyStrip (pyReplace (pyReplace s "\n" " ") "  " " ")) ∧
    (∀ s : String, '\n' ∉ (pyReplace s "\n" " ").data) ∧
    cleanText "a   b" = "a  b" ∧
    pySplit "a  b" "  " = ["a", "b"] ∧
    cleanText (format_transcript [⟨"a ", 0, 0⟩, ⟨" b", 0, 0⟩]) = "a  b" ∧
    cleanText "x\ny" = "x y" :=
  ⟨fun _ => rfl, pyReplace_newline_free, by decide, by decide, by decide, by decide⟩

/-- Witness for C2: the normalization evaluated on the triple-space
input keeps a double space. -/
theorem C2_normalization_single_pass_witness :
    cleanText "a   b" = "a  b" :=
  C2_normalization_single_pass.2.2.1

end Gauner

namespace Gauner

/-- Claim C3: when all three fallback tiers fail, the full endpoint
returns a 404 whose detail carries the third tier's error text, and so
does the alternate handler (with its own third-tier error); the tier-1
and tier-2 failures are suppressed and never surfaced. -/
theorem C3_all_tiers_fail_404 (P : Provider) (v : String) (e1 e2 e3 : String)
    (hv : 10 ≤ v.length)
    (h1 : P (tier1Call v) = .error e1) (h2 : P (tier2Call v) = .error e2)
    (h3 : P (tier3CallApi v) = .error e3) :
    (get_transcript P v).2 =
      .httpError 404 ("No transcript found for video " ++ v ++ ". Error: " ++ e3) ∧
    ∀ (req : Request) (exc : Option String) (e3w : String), req.method = "GET" →
      parseVideoId req.url = some v → P (tier3CallWorker v) = .error e3w →
      (workerMain P exc req).2 =
        ⟨404,
          .errorJson ("No transcript found for video " ++ v ++ ". Error: " ++ e3w) false,
          corsJsonHeaders⟩ := by
  have hne : v ≠ "" := by
    intro h
    rw [h] at hv
    exact absurd hv (by decide)
  have hnv : ¬(v = "" ∨ v.length < 10) := by
    rintro (h | h)
    · exact hne h
    · omega
  constructor
  · unfold get_transcript
    rw [if_neg hnv, apiFallbackChain_all_fail P v e1 e2 e3 h1 h2 h3]
  · intro req exc e3w hm hu h3w
    unfold workerMain
    rw [hm]
    rw [if_neg (by decide : ¬("GET" : String) = "OPTIONS")]
    simp only [hu]
    rw [if_neg hne, workerFallbackChain_all_fail P v e1 e2 e3w h1 h2 h3w]

/-- Witness for C3: a provider without captions drives both entry
points to the 404 carrying the last tier's error text. -/
theorem C3_all_tiers_fail_404_witness :
    (get_transcript failP "abcdefghij").2 =
      .httpError 404
        ("No transcript found for video " ++ "abcdefghij" ++ ". Error: " ++ "no captions") ∧
    (workerMain failP none ⟨"GET", "x?video_id=abcdefghij"⟩).2 =
      ⟨404,
        .errorJson ("No transcript found for video " ++ "abcdefghij" ++ ". Error: " ++ "no captions")
          false,
        corsJsonHeaders⟩ :=
  ⟨(C3_all_tiers_fail_404 failP "abcdefghij" "no captions" "no captions" "no captions"
      (by decide) rfl rfl rfl).1,
   (C3_all_tiers_fail_404 failP "abcdefghij" "no captions" "no captions" "no captions"
      (by decide) rfl rfl rfl).2 ⟨"GET", "x?video_id=abcdefghij"⟩ none "no captions" rfl
      (by decide) rfl⟩

/-- Claim C4: the full endpoint rejects every empty or
shorter-than-10-character identifier with a 400 before issuing any
provider request (the returned call trace is empty). -/
theorem C4_short_id_400 (P : Provider) (v : String)
    (hv : v = "" ∨ v.length < 10) :
    get_transcript P v = ([], .httpError 400 "Invalid video ID") := by
  unfold get_transcript
  rw [if_pos hv]

/-- Witness for C4: the five-character identifier "short" yields the
400 with no provider call issued. -/
theorem C4_short_id_400_witness :
    get_transcript failP "short" = ([], .httpError 400 "Invalid video ID") :=
  C4_short_id_400 failP "short" (Or.inr (by decide))

/-- Claim C5: the tier-3 allow-list is exactly the ten languages
['en','de','fr','es','it','pt','ru','ja','ko','zh'] in the full
endpoint and exactly the five-language list ['en','de','fr','es','it']
in the alternate handler. -/
theorem C5_tier3_allowlists (P : Provider) (v : String) (e1 e2 : String)
    (h1 : P (tier1Call v) = .error e1) (h2 : P (tier2Call v) = .error e2) :
    (apiFallbackChain P v).1 = [tier1Call v, tier2Call v, tier3CallApi v] ∧
    tier3CallApi v =
      ⟨v, some ["en", "de", "fr", "es", "it", "pt", "ru", "ja", "ko", "zh"], false⟩ ∧
    (workerFallbackChain P v).1 = [tier1Call v, tier2Call v, tier3CallWorker v] ∧
    tier3CallWorker v = ⟨v, some ["en", "de", "fr", "es", "it"], false⟩ := by
  refine ⟨?_, rfl, ?_, rfl⟩
  · unfold apiFallbackChain
    rw [h1, h2]
    cases P (tier3CallApi v) <;> rfl
  · unfold workerFallbackChain
    rw [h1, h2]
    cases P (tier3CallWorker v) <;> rfl

/-- Witness for C5: both chains issue their tier-3 call with the
respective allow-list when the first two tiers fail. -/
theorem C5_tier3_allowlists_witness :
    (apiFallbackChain failP "abcdefghij").1 =
      [tier1Call "abcdefghij", tier2Call "abcdefghij", tier3CallApi "abcdefghij"] ∧
    (workerFallbackChain failP "abcdefghij").1 =
      [tier1Call "abcdefghij", tier2Call "abcdefghij", tier3CallWorker "abcdefghij"] :=
  ⟨(C5_tier3_allowlists failP "abcdefghij" "no captions" "no captions" rfl rfl).1,
   (C5_tier3_allowlists failP "abcdefghij" "no captions" "no captions" rfl rfl).2.2.1⟩

end Gauner

namespace Gauner

/-- Claim C6: the segments endpoint makes exactly one provider attempt
with languages ['en','de','fr','es','it'], applies no fallback and no
normalization, returns the provider's segment list unmodified with its
count on success, and maps every failure to a 500, never a 404. -/
theorem C6_segments_single_attempt (P : Provider) (v : String) :
    (get_transcript_segments P v).1 = [⟨v, some ["en", "de", "fr", "es", "it"], false⟩] ∧
    (∀ d, P (segmentsCall v) = .ok d →
      (get_transcript_segments P v).2 =
        .ok ⟨true, v, d, d.length, "railway-youtube-transcript-api"⟩) ∧
    (∀ e, P (segmentsCall v) = .error e →
      (get_transcript_segments P v).2 = .httpError 500 ("Server error: " ++ e)) ∧
    (∀ s detail, (get_transcript_segments P v).2 = .httpError s detail → s = 500) := by
  refine ⟨?_, ?_, ?_, ?_⟩
  · unfold get_transcript_segments
    cases P (segmentsCall v) <;> rfl
  · intro d h
    unfold get_transcript_segments
    rw [h]
  · intro e h
    unfold get_transcript_segments
    rw [h]
  · intro s detail h
    unfold get_transcript_segments at h
    cases hp : P (segmentsCall v) with
    | ok d =>
      rw [hp] at h
      simp at h
    | error e =>
      rw [hp] at h
      simp only [SegmentsResult.httpError.injEq] at h
      exact h.1.symm

/-- Witness for C6: a succeeding provider yields the raw segment list
and count; a failing provider yields the 500. -/
theorem C6_segments_single_attempt_witness :
    (get_transcript_segments okAllP "abcdefghij").2 =
      .ok ⟨true, "abcdefghij", [seg1], 1, "railway-youtube-transcript-api"⟩ ∧
    (get_transcript_segments failP "abcdefghij").2 =
      .httpError 500 ("Server error: " ++ "no captions") :=
  ⟨(C6_segments_single_attempt okAllP "abcdefghij").2.1 [seg1] rfl,
   (C6_segments_single_attempt failP "abcdefghij").2.2.1 "no captions" rfl⟩

/-- Claim C8: when the fallback chain reports success with an empty
segment list, the full endpoint returns the defensive 404 rather than
a success with empty text. -/
theorem C8_empty_data_404 (P : Provider) (v : String) (lang : String)
    (calls : List ProviderCall) (hv : 10 ≤ v.length)
    (hok : apiFallbackChain P v = (calls, .ok ([], lang))) :
    (get_transcript P v).2 =
      .httpError 404 ("No transcript data available for video " ++ v) := by
  have hnv : ¬(v = "" ∨ v.length < 10) := by
    rintro (rfl | h)
    · exact absurd hv (by decide)
    · omega
  unfold get_transcript
  rw [if_neg hnv, hok]
  rfl

/-- Witness for C8: a provider answering with an empty segment list
drives the full endpoint to the defensive 404. -/
theorem C8_empty_data_404_witness :
    (get_transcript emptyP "abcdefghij").2 =
      .httpError 404 ("No transcript data available for video " ++ "abcdefghij") :=
  C8_empty_data_404 emptyP "abcdefghij" "en (auto-generated)" [tier1Call "abcdefghij"]
    (by decide) rfl

end Gauner

namespace Gauner

theorem workerMain_headers_cases (P : Provider) (exc : Option String) (req : Request) :
    (workerMain P exc req).2.headers = optionsHeaders ∨
    (workerMain P exc req).2.headers = corsJsonHeaders := by
  unfold workerMain
  split
  · exact Or.inl rfl
  · split
    · exact Or.inr rfl
    · split
      · exact Or.inr rfl
      · split
        · exact Or.inr rfl
        · split
          · exact Or.inr rfl
          · exact Or.inr rfl

theorem workerMain_exc_500 (P : Provider) (req : Request) (video_id e : String)
    (calls : List ProviderCall) (transcript : List Segment)
    (hm : req.method = "GET") (hp : parseVideoId req.url = some video_id)
    (hne : video_id ≠ "")
    (hw : workerFallbackChain P video_id = (calls, .ok transcript)) :
    workerMain P (some e) req =
      (calls, ⟨500, .errorJson ("Server error: " ++ e) false, corsJsonHeaders⟩) := by
  unfold workerMain
  rw [hm]
  rw [if_neg (by decide : ¬("GET" : String) = "OPTIONS")]
  simp only [hp]
  rw [if_neg hne, hw]

/-- Claim C7: an OPTIONS request to the alternate handler returns
status 200 with an empty body and the CORS headers; the outer
exception handler's 500 response is the "Server error" JSON with the
CORS headers; and every response of the handler — 400, 404, 500 or
200 — carries the Access-Control-Allow-Origin header. -/
theorem C7_worker_cors (P : Provider) (exc : Option String) (u : String) (req : Request) :
    workerMain P exc ⟨"OPTIONS", u⟩ = ([], ⟨200, .empty, optionsHeaders⟩) ∧
    ("Access-Control-Allow-Origin", "*") ∈ optionsHeaders ∧
    (∀ video_id e calls transcript, req.method = "GET" →
      parseVideoId req.url = some video_id → video_id ≠ "" →
      workerFallbackChain P video_id = (calls, .ok transcript) → exc = some e →
      workerMain P exc req =
        (calls, ⟨500, .errorJson ("Server error: " ++ e) false, corsJsonHeaders⟩)) ∧
    ("Access-Control-Allow-Origin", "*") ∈ (workerMain P exc req).2.headers := by
  refine ⟨rfl, by decide, ?_, ?_⟩
  · intro video_id e calls transcript hm hp hne hw hexc
    rw [hexc]
    exact workerMain_exc_500 P req video_id e calls transcript hm hp hne hw
  · rcases workerMain_headers_cases P exc req with h | h <;> rw [h]
    · exact List.mem_cons_self _ _
    · exact List.mem_cons_self _ _

/-- Witness for C7: with a provider whose tier-1 call succeeds and a
formatting-step exception "boom", the handler takes the outer 500 path
with the CORS headers. -/
theorem C7_worker_cors_witness :
    workerMain okAllP (some "boom") ⟨"GET", "x?video_id=abcdefghij"⟩ =
      ([tier1Call "abcdefghij"],
        ⟨500, .errorJson ("Server error: " ++ "boom") false, corsJsonHeaders⟩) :=
  (C7_worker_cors okAllP (some "boom") "u" ⟨"GET", "x?video_id=abcdefghij"⟩).2.2.1
    "abcdefghij" "boom" [tier1Call "abcdefghij"] [seg1]
    rfl (by decide) (by decide) rfl rfl

/-- Claim C9: in the alternate handler's query parsing, a video_id
value containing an equals sign is truncated to the portion before its
first equals sign, and a present-but-empty video_id parameter is
treated exactly like a missing parameter: the 400 "Missing video_id
parameter" response with no provider call issued. -/
theorem C9_query_parsing (P : Provider) (exc : Option String) (u : String) :
    parseVideoId "https://w.example?video_id=abc=def" = some "abc" ∧
    parseVideoId "https://w.example?video_id=" = some "" ∧
    parseVideoId "https://w.example" = none ∧
    (parseVideoId u = some "" →
      workerMain P exc ⟨"GET", u⟩ =
        ([], ⟨400, .errorJson "Missing video_id parameter" false, corsJsonHeaders⟩)) ∧
    (parseVideoId u = none →
      workerMain P exc ⟨"GET", u⟩ =
        ([], ⟨400, .errorJson "Missing video_id parameter" false, corsJsonHeaders⟩)) := by
  refine ⟨by decide, by decide, by decide, ?_, ?_⟩
  · intro h
    unfold workerMain
    rw [if_neg (by decide : ¬("GET" : String) = "OPTIONS")]
    simp only [h]
    rfl
  · intro h
    unfold workerMain
    rw [if_neg (by decide : ¬("GET" : String) = "OPTIONS")]
    simp only [h]

/-- Witness for C9: the URL whose query is exactly "video_id=" gets
the same 400 as a missing parameter. -/
theorem C9_query_parsing_witness :
    workerMain failP none ⟨"GET", "https://w.example?video_id="⟩ =
      ([], ⟨400, .errorJson "Missing video_id parameter" false, corsJsonHeaders⟩) :=
  (C9_query_parsing failP none "https://w.example?video_id=").2.2.2.1 (by decide)

end Gauner

namespace Gauner

theorem workerMain_success_inv (P : Provider) (exc : Option String) (req : Request)
    (calls : List ProviderCall) (st : Nat) (b : Bool) (t vid : String) (c l : Nat)
    (hdrs : List (String × String))
    (h : workerMain P exc req = (calls, ⟨st, .successJson b t vid c l, hdrs⟩)) :
    b = true ∧ st = 200 ∧ l = t.length ∧ hdrs = corsJsonHeaders ∧
    ∃ d, workerFallbackChain P vid = (calls, .ok d) ∧ c = d.length ∧
      t = cleanText (format_transcript d) := by
  unfold workerMain at h
  split at h
  · simp at h
  · split at h
    · simp at h
    · split at h
      · simp at h
      · split at h
        · simp at h
        · rename_i heq
          split at h
          · simp at h
          · simp only [Prod.mk.injEq, Response.mk.injEq, WorkerBody.successJson.injEq] at h
            obtain ⟨rfl, rfl, ⟨rfl, rfl, rfl, rfl, rfl⟩, rfl⟩ := h
            exact ⟨rfl, rfl, rfl, rfl, _, heq, rfl, rfl⟩

theorem workerMain_response_cases (P : Provider) (exc : Option String) (req : Request) :
    (workerMain P exc req).2 = ⟨200, .empty, optionsHeaders⟩ ∨
    (∃ msg, (workerMain P exc req).2 = ⟨400, .errorJson msg false, corsJsonHeaders⟩) ∨
    (∃ msg, (workerMain P exc req).2 = ⟨404, .errorJson msg false, corsJsonHeaders⟩) ∨
    (∃ msg, (workerMain P exc req).2 = ⟨500, .errorJson msg false, corsJsonHeaders⟩) ∨
    (∃ b t vid c l,
      (workerMain P exc req).2 = ⟨200, .successJson b t vid c l, corsJsonHeaders⟩) := by
  unfold workerMain
  split
  · exact Or.inl rfl
  · split
    · exact Or.inr (Or.inl ⟨_, rfl⟩)
    · split
      · exact Or.inr (Or.inl ⟨_, rfl⟩)
      · split
        · exact Or.inr (Or.inr (Or.inl ⟨_, rfl⟩))
        · split
          · exact Or.inr (Or.inr (Or.inr (Or.inl ⟨_, rfl⟩)))
          · exact Or.inr (Or.inr (Or.inr (Or.inr ⟨_, _, _, _, _, rfl⟩)))

/-- Claim C10: every 200 success of the full endpoint is internally
consistent — success is true, video_id echoes the request,
transcript_length is the length of the returned transcript, and
segments_count is the number of segments the succeeding attempt
returned — and likewise for the worker's success JSON; conversely no
error response carries a transcript: the worker's 400, 404 and 500
responses all carry only an error body (the 500 case is pinned
explicitly on the outer exception path), and a full-endpoint error is
an HTTPException carrying only a status and a detail string, by
construction of `ApiResult`. -/
theorem C10_success_consistency (P : Provider) (exc : Option String)
    (v : String) (req : Request) :
    (∀ calls resp, get_transcript P v = (calls, .ok resp) →
      resp.success = true ∧ resp.video_id = v ∧
      resp.transcript_length = resp.transcript.length ∧
      resp.service = "railway-youtube-transcript-api" ∧
      ∃ d, apiFallbackChain P v = (calls, .ok (d, resp.language_used)) ∧
        resp.segments_count = d.length ∧
        resp.transcript = cleanText (format_transcript d)) ∧
    (∀ calls st b t vid c l hdrs,
      workerMain P exc req = (calls, ⟨st, .successJson b t vid c l, hdrs⟩) →
      b = true ∧ st = 200 ∧ l = t.length ∧
      ∃ d, workerFallbackChain P vid = (calls, .ok d) ∧ c = d.length ∧
        t = cleanText (format_transcript d)) ∧
    (∀ video_id e calls transcript, req.method = "GET" →
      parseVideoId req.url = some video_id → video_id ≠ "" →
      workerFallbackChain P video_id = (calls, .ok transcript) → exc = some e →
      (workerMain P exc req).2.status = 500 ∧
      (workerMain P exc req).2.body = .errorJson ("Server error: " ++ e) false) ∧
    ((workerMain P exc req).2.status ≠ 200 →
      ∃ msg, (workerMain P exc req).2.body = .errorJson msg false) := by
  refine ⟨?_, ?_, ?_, ?_⟩
  · intro calls resp h
    obtain ⟨d, hd, -, hresp⟩ := get_transcript_ok_inv P v calls resp h
    refine ⟨?_, ?_, ?_, ?_, d, hd, ?_, ?_⟩ <;> rw [hresp]
  · intro calls st b t vid c l hdrs h
    obtain ⟨h1, h2, h3, -, h5⟩ := workerMain_success_inv P exc req calls st b t vid c l hdrs h
    exact ⟨h1, h2, h3, h5⟩
  · intro video_id e calls transcript hm hp hne hw hexc
    rw [hexc, workerMain_exc_500 P req video_id e calls transcript hm hp hne hw]
    exact ⟨rfl, rfl⟩
  · intro hst
    rcases workerMain_response_cases P exc req with
      h | ⟨msg, h⟩ | ⟨msg, h⟩ | ⟨msg, h⟩ | ⟨b, t, vid, c, l, h⟩
    · rw [h] at hst
      exact absurd rfl hst
    · rw [h]
      exact ⟨msg, rfl⟩
    · rw [h]
      exact ⟨msg, rfl⟩
    · rw [h]
      exact ⟨msg, rfl⟩
    · rw [h] at hst
      exact absurd rfl hst

/-- Witness for C10: the concrete success body produced by the full
endpoint for the English-only provider satisfies all the consistency
equations, and a concrete formatting-step exception produces the
worker's 500 with an error-only body. -/
theorem C10_success_consistency_witness :
    (respW.success = true ∧ respW.video_id = "abcdefghij" ∧
     respW.transcript_length = respW.transcript.length ∧
     respW.service = "railway-youtube-transcript-api" ∧
     ∃ d, apiFallbackChain okEnP "abcdefghij" =
         ([tier1Call "abcdefghij"], .ok (d, respW.language_used)) ∧
       respW.segments_count = d.length ∧
       respW.transcript = cleanText (format_transcript d)) ∧
    ((workerMain okAllP (some "boom") ⟨"GET", "x?video_id=abcdefghij"⟩).2.status = 500 ∧
     (workerMain okAllP (some "boom") ⟨"GET", "x?video_id=abcdefghij"⟩).2.body =
       .errorJson ("Server error: " ++ "boom") false) :=
  ⟨(C10_success_consistency okEnP none "abcdefghij" ⟨"GET", "u"⟩).1
      [tier1Call "abcdefghij"] respW (by decide),
   (C10_success_consistency okAllP (some "boom") "abcdefghij"
        ⟨"GET", "x?video_id=abcdefghij"⟩).2.2.1
      "abcdefghij" "boom" [tier1Call "abcdefghij"] [seg1]
      rfl (by decide) (by decide) rfl rfl⟩

end Gauner
